import Mathlib

/-!
Verification of the hybrid-encryption transport subsystem of the
playstudy-card-dash backend: a shallow embedding of
`backend/app/core/crypto.py`, `backend/app/core/nonce_manager.py`,
`backend/app/core/field_encryption.py` and
`backend/app/middleware/encryption_middleware.py`, with theorems about the
properties stated in the specification.

Modelling conventions:
* Byte strings are `List Nat`, each element a byte value below 256.
* A base64 string is modelled by `B64S`: `B64S.ok bs` stands for the valid
  base64 encoding of the byte list `bs` (the empty byte list encodes to the
  empty string), and `B64S.bad` stands for a malformed base64 string.
  `b64decode` is the partial inverse, mirroring `base64.b64decode` raising on
  malformed input.
* Wall-clock time is an explicit `Int` parameter `now`, standing for
  `int(time.time())`; Python integers are unbounded so `Int` is exact.
* The AES-GCM primitive of the `cryptography` library is not repository code;
  it is modelled as an idealized AEAD: the body transform is a per-byte xor
  with a key/iv-derived keystream (an involution, as CTR mode is) and the
  authentication tag is a 16-byte value whose first byte depends linearly on
  the byte sum of key, iv and ciphertext, reflecting the GHASH linearity that
  makes any single-byte change tag-detectable.
* JSON serialization of the payload dictionary is modelled as the identity
  coding on the serialized bytes (`Json := List Nat`): the payload travels as
  its serialization, and no claim under scrutiny depends on a JSON parse
  failure of correctly decrypted bytes.
-/

/-- Byte strings: lists of byte values. -/
abbrev ByteStr := List Nat

/-- Model of a payload dictionary, represented by its JSON serialization. -/
abbrev Json := List Nat

/-- Model of a base64-encoded string: either the encoding of a byte list or a
malformed string. -/
inductive B64S where
  | ok (bytes : ByteStr) : B64S
  | bad : B64S
deriving DecidableEq

/-- Model of `base64.b64decode`: succeeds exactly on well-formed encodings. -/
def b64decode : B64S → Option ByteStr
  | B64S.ok bs => some bs
  | B64S.bad => none

/-- Model of `base64.b64encode`. -/
def b64encode (bs : ByteStr) : B64S := B64S.ok bs

/-- AES-256 key size in bytes (`AES_KEY_SIZE` in crypto.py). -/
def AES_KEY_SIZE : Nat := 32

/-- GCM initialization vector size in bytes (`AES_IV_SIZE` in crypto.py). -/
def AES_IV_SIZE : Nat := 12

/-- GCM authentication tag size in bytes (`AES_TAG_SIZE` in crypto.py). -/
def AES_TAG_SIZE : Nat := 16

/-- Shallow embedding of `CryptoService.validate_timestamp` from crypto.py.
The wall clock `int(time.time())` is passed explicitly as `now`. The age is
`now - timestamp`; a negative age (future timestamp) is rejected, an age above
`maxAge` is rejected, everything else is accepted. -/
def validateTimestamp (now timestamp maxAge : Int) : Bool :=
  let age := now - timestamp
  if age < 0 then false
  else if age > maxAge then false
  else true

/-! ## Nonce manager (`backend/app/core/nonce_manager.py`) -/

/-- Model of the Redis nonce store: a list of `(key, expiresAt)` entries. An
entry is live at time `now` exactly when `now < expiresAt`. Redis deletes
expired keys automatically, which the liveness predicate reflects. -/
structure RedisState where
  entries : List (String × Int)
deriving DecidableEq

/-- Liveness of a key in the Redis model: some entry for the key has not yet
expired. -/
def redisHasLive (st : RedisState) (now : Int) (k : String) : Bool :=
  st.entries.any (fun p => p.1 == k && now < p.2)

/-- Model of `redis.set(key, "1", ex=ttl, nx=True)`: succeeds exactly when no
live entry for the key exists, recording an entry that expires at
`now + ttl`. -/
def redisSetNxEx (st : RedisState) (now ttl : Int) (k : String) :
    Bool × RedisState :=
  if redisHasLive st now k then (false, st)
  else (true, RedisState.mk ((k, now + ttl) :: st.entries))

/-- State of `NonceManager`: an optional Redis client and the in-memory
fallback store (`_fallback_store`), modelled by its list of keys. -/
structure NonceManager where
  redis : Option RedisState
  fallbackStore : List String
deriving DecidableEq

/-- Redis key for a nonce, mirroring `f"nonce:{nonce}"`. -/
def nonceKey (nonce : String) : String := "nonce:" ++ nonce

/-- Size bound after which `verify_nonce` clears the whole fallback store. -/
def FALLBACK_CLEAR_BOUND : Nat := 10000

/-- Shallow embedding of `NonceManager.verify_nonce`. Returns the verdict and
the updated manager state. A falsy or short nonce is rejected immediately.
With a Redis client, the atomic set-if-absent decides; without one, the
in-memory fallback dictionary decides, and the whole store is cleared after an
insert pushes its size above `FALLBACK_CLEAR_BOUND`. -/
def verifyNonce (m : NonceManager) (now : Int) (nonce : String) (ttl : Int) :
    Bool × NonceManager :=
  if nonce = "" || nonce.length < 10 then (false, m)
  else
    match m.redis with
    | some st =>
      let r := redisSetNxEx st now ttl (nonceKey nonce)
      (r.1, NonceManager.mk (some r.2) m.fallbackStore)
    | none =>
      if m.fallbackStore.contains nonce then (false, m)
      else
        let store := nonce :: m.fallbackStore
        (true, NonceManager.mk none
          (if FALLBACK_CLEAR_BOUND < store.length then [] else store))

/-! ## Claim C6 -/

/-- Claim C6: `validate_timestamp(T, max_age)` returns true if and only if
`0 <= now - T <= max_age` at the time of the call; a future timestamp and a
timestamp older than `max_age` are rejected, the boundary `now - T = max_age`
is accepted. -/
theorem claim_C6_timestamp_window (now timestamp maxAge : Int) :
    validateTimestamp now timestamp maxAge = true ↔
      0 ≤ now - timestamp ∧ now - timestamp ≤ maxAge := by
  unfold validateTimestamp
  by_cases h1 : now - timestamp < 0
  · simp [h1]
    omega
  · by_cases h2 : now - timestamp > maxAge
    · simp [h1, h2]
      omega
    · simp [h1, h2]
      omega

/-! ## Claim C9 -/

/-- Claim C9: every nonce string shorter than 10 characters is rejected by
`verify_nonce` without consulting or modifying the nonce store, on either
backend: the verdict is false and the manager state is returned unchanged. -/
theorem claim_C9_short_nonce_rejected (m : NonceManager) (now : Int)
    (nonce : String) (ttl : Int) (h : nonce.length < 10) :
    verifyNonce m now nonce ttl = (false, m) := by
  unfold verifyNonce
  have : (nonce = "" || nonce.length < 10) = true := by
    simp [h]
  simp [this]

/-- Witness for claim C9 at the concrete empty nonce and a concrete manager
state. -/
theorem claim_C9_short_nonce_rejected_witness :
    verifyNonce (NonceManager.mk none ["abcdefghij"]) 50 "abc" 300 =
      (false, NonceManager.mk none ["abcdefghij"]) :=
  claim_C9_short_nonce_rejected (NonceManager.mk none ["abcdefghij"]) 50
    "abc" 300 (by decide)

/-! ## Claim C4 -/

/-- Helper: a nonce of length at least 10 passes the format guard of
`verify_nonce`. -/
theorem nonce_guard_false {nonce : String} (h : 10 ≤ nonce.length) :
    (nonce = "" || nonce.length < 10) = false := by
  have hne : ¬ nonce = "" := by
    intro he
    rw [he] at h
    simp at h
  simp [hne]
  omega

/-- Counterexample to claim C4 as stated: with the in-memory fallback backend
(no Redis client), a nonce accepted at time 0 with a 300-second TTL is still
rejected at time 1000000, long after the TTL expired; the nonce does not
behave as unseen again after expiry. -/
theorem claim_C4_counterexample :
    (verifyNonce (NonceManager.mk none []) 0 "abcdefghij" 300).1 = true ∧
    (verifyNonce (verifyNonce (NonceManager.mk none []) 0 "abcdefghij" 300).2
        1000000 "abcdefghij" 300).1 = false := by
  decide

/-- Claim C4 (amended): for a well-formed nonce, with the shared Redis store
backend `verify_nonce` is true exactly once within the TTL window — the first
check of a non-live nonce is true and records an entry expiring at
`now + ttl`, every check before that expiry is false, and at or after expiry
the nonce behaves as unseen again. With the in-memory fallback backend, the
first check of an unrecorded nonce is true and, as long as the store was not
cleared by exceeding its size bound, every subsequent check is false
regardless of elapsed time — entries of the fallback store do not expire with
the TTL. -/
theorem claim_C4_nonce_single_use (st : RedisState) (fb : List String)
    (now ttl : Int) (nonce : String)
    (hlen : 10 ≤ nonce.length) (httl : 0 ≤ ttl)
    (hfresh : redisHasLive st now (nonceKey nonce) = false) :
    ((verifyNonce (NonceManager.mk (some st) fb) now nonce ttl).1 = true ∧
     (verifyNonce (NonceManager.mk (some st) fb) now nonce ttl).2 =
       NonceManager.mk
         (some (RedisState.mk ((nonceKey nonce, now + ttl) :: st.entries))) fb ∧
     (∀ now' : Int, now ≤ now' → now' < now + ttl →
       (verifyNonce
         (verifyNonce (NonceManager.mk (some st) fb) now nonce ttl).2
         now' nonce ttl).1 = false) ∧
     (∀ now' : Int, now + ttl ≤ now' →
       (verifyNonce
         (verifyNonce (NonceManager.mk (some st) fb) now nonce ttl).2
         now' nonce ttl).1 = true)) ∧
    (∀ store : List String, nonce ∉ store →
      store.length + 1 ≤ FALLBACK_CLEAR_BOUND →
      (verifyNonce (NonceManager.mk none store) now nonce ttl).1 = true ∧
      (∀ now' : Int,
        (verifyNonce
          (verifyNonce (NonceManager.mk none store) now nonce ttl).2
          now' nonce ttl).1 = false)) := by
  have hg := nonce_guard_false hlen
  have hset : redisSetNxEx st now ttl (nonceKey nonce) =
      (true, RedisState.mk ((nonceKey nonce, now + ttl) :: st.entries)) := by
    unfold redisSetNxEx
    simp [hfresh]
  constructor
  · have hrun : verifyNonce (NonceManager.mk (some st) fb) now nonce ttl =
        (true, NonceManager.mk
          (some (RedisState.mk ((nonceKey nonce, now + ttl) :: st.entries)))
          fb) := by
      unfold verifyNonce
      simp [hg, hset]
    refine ⟨by rw [hrun], by rw [hrun], ?_, ?_⟩
    · intro now' h1 h2
      rw [hrun]
      unfold verifyNonce
      have hlive : redisHasLive
          (RedisState.mk ((nonceKey nonce, now + ttl) :: st.entries)) now'
          (nonceKey nonce) = true := by
        unfold redisHasLive
        simp [List.any_cons]
        left
        exact h2
      unfold redisSetNxEx
      simp [hg, hlive]
    · intro now' h1
      rw [hrun]
      unfold verifyNonce
      have hlive : redisHasLive
          (RedisState.mk ((nonceKey nonce, now + ttl) :: st.entries)) now'
          (nonceKey nonce) = false := by
        unfold redisHasLive
        simp [List.any_cons]
        constructor
        · omega
        · intro a b hmem hab
          have hfe := hfresh
          unfold redisHasLive at hfe
          rw [List.any_eq_false] at hfe
          have h2 := hfe (a, b) hmem
          simp [hab] at h2
          omega
      unfold redisSetNxEx
      simp [hg, hlive]
  · intro store hmem hbound
    have hsz : ¬ (FALLBACK_CLEAR_BOUND < store.length + 1) := by
      omega
    have hrun : verifyNonce (NonceManager.mk none store) now nonce ttl =
        (true, NonceManager.mk none (nonce :: store)) := by
      unfold verifyNonce
      simp [hg, hmem, hsz]
    refine ⟨by rw [hrun], ?_⟩
    intro now'
    rw [hrun]
    unfold verifyNonce
    simp [hg]

/-- Witness for claim C4 at a concrete nonce, TTL and store states. -/
theorem claim_C4_nonce_single_use_witness :
    ((verifyNonce (NonceManager.mk (some (RedisState.mk [])) []) 0
        "abcdefghij" 300).1 = true ∧
     (verifyNonce (NonceManager.mk (some (RedisState.mk [])) []) 0
        "abcdefghij" 300).2 =
       NonceManager.mk (some (RedisState.mk [("nonce:abcdefghij", 300)])) [] ∧
     (∀ now' : Int, 0 ≤ now' → now' < 0 + 300 →
       (verifyNonce
         (verifyNonce (NonceManager.mk (some (RedisState.mk [])) []) 0
           "abcdefghij" 300).2 now' "abcdefghij" 300).1 = false) ∧
     (∀ now' : Int, 0 + 300 ≤ now' →
       (verifyNonce
         (verifyNonce (NonceManager.mk (some (RedisState.mk [])) []) 0
           "abcdefghij" 300).2 now' "abcdefghij" 300).1 = true)) ∧
    (∀ store : List String, "abcdefghij" ∉ store →
      store.length + 1 ≤ FALLBACK_CLEAR_BOUND →
      (verifyNonce (NonceManager.mk none store) 0 "abcdefghij" 300).1 = true ∧
      (∀ now' : Int,
        (verifyNonce
          (verifyNonce (NonceManager.mk none store) 0 "abcdefghij" 300).2
          now' "abcdefghij" 300).1 = false)) := by
  have h := claim_C4_nonce_single_use (RedisState.mk []) [] 0 300 "abcdefghij"
    (by decide) (by decide) (by decide)
  have hk : nonceKey "abcdefghij" = "nonce:abcdefghij" := by decide
  rw [hk] at h
  exact h

/-! ## RSA key unwrap (`CryptoService.decrypt_aes_key` in crypto.py) -/

/-- Model of the RSA private key of the `cryptography` library: the modulus
size in bytes (RSA-2048 gives 256) and the raw OAEP decryption, which fails
(raises, modelled as `none`) on a padding failure. The library rejects a
ciphertext whose length differs from the modulus size before attempting
decryption, which `modulusBytes` lets the embedding mirror. -/
structure RsaPrivateKey where
  modulusBytes : Nat
  dec : ByteStr → Option ByteStr

/-- Distinct failure causes inside the `try` block of `decrypt_aes_key`: the
four sub-steps handled there are base64 decoding, the ciphertext size check,
OAEP unpadding, and the resulting key length check. -/
inductive KeyDecryptInnerErr where
  | badBase64 : KeyDecryptInnerErr
  | wrongCiphertextSize : KeyDecryptInnerErr
  | paddingFailure : KeyDecryptInnerErr
  | wrongKeyLength : KeyDecryptInnerErr
deriving DecidableEq

/-- Generic errors raised by `CryptoService` methods after their blanket
`except` handlers, one value per distinct `ValueError` message. -/
inductive CryptoFailure where
  | failedToDecryptAesKey : CryptoFailure
  | authenticationFailed : CryptoFailure
  | failedToDecryptPayload : CryptoFailure
  | failedToEncryptPayload : CryptoFailure
deriving DecidableEq

/-- Body of the `try` block of `CryptoService.decrypt_aes_key`, with the
distinct failure causes kept apart: base64-decode the ciphertext, let the RSA
layer check its size and unpad it, then check the unwrapped key length against
`AES_KEY_SIZE`. -/
def decryptAesKeyInner (priv : RsaPrivateKey) (s : B64S) :
    Except KeyDecryptInnerErr ByteStr :=
  match b64decode s with
  | none => Except.error KeyDecryptInnerErr.badBase64
  | some ct =>
    if ct.length ≠ priv.modulusBytes then
      Except.error KeyDecryptInnerErr.wrongCiphertextSize
    else
      match priv.dec ct with
      | none => Except.error KeyDecryptInnerErr.paddingFailure
      | some k =>
        if k.length ≠ AES_KEY_SIZE then
          Except.error KeyDecryptInnerErr.wrongKeyLength
        else Except.ok k

/-- Shallow embedding of `CryptoService.decrypt_aes_key`: the blanket
`except Exception` handler collapses every inner failure into the single
generic `ValueError("Failed to decrypt AES key")`. -/
def decryptAesKey (priv : RsaPrivateKey) (s : B64S) :
    Except CryptoFailure ByteStr :=
  match decryptAesKeyInner priv s with
  | Except.ok k => Except.ok k
  | Except.error _ => Except.error CryptoFailure.failedToDecryptAesKey

/-- Helper: a successful `decrypt_aes_key` inner run returns a 32-byte key. -/
theorem decryptAesKeyInner_ok_length (priv : RsaPrivateKey) (s : B64S)
    (k : ByteStr) (h : decryptAesKeyInner priv s = Except.ok k) :
    k.length = AES_KEY_SIZE := by
  cases s with
  | bad => simp [decryptAesKeyInner, b64decode] at h
  | ok ct =>
    simp only [decryptAesKeyInner, b64decode] at h
    by_cases hsz : ct.length ≠ priv.modulusBytes
    · simp [hsz] at h
    · simp [hsz] at h
      cases hdec : priv.dec ct with
      | none => rw [hdec] at h; simp at h
      | some k0 =>
        rw [hdec] at h
        by_cases hkl : k0.length ≠ AES_KEY_SIZE
        · simp [hkl] at h
        · have hk2 : k0.length = AES_KEY_SIZE := by omega
          simp [hk2] at h
          rw [← h]
          exact hk2

/-! ## Claim C3 -/

/-- Claim C3: for every input, `decrypt_aes_key` either returns a 32-byte AES
key or fails with the one generic error; each of the four distinct inner
failure causes (malformed base64, wrong ciphertext size, padding failure,
wrong resulting key length) is mapped to that same error value, so the error
does not reveal which sub-step failed. -/
theorem claim_C3_key_unwrap_generic_error (priv : RsaPrivateKey) (s : B64S) :
    (decryptAesKey priv s = Except.error CryptoFailure.failedToDecryptAesKey ∨
     ∃ k, decryptAesKey priv s = Except.ok k ∧ k.length = AES_KEY_SIZE) ∧
    (∀ e : KeyDecryptInnerErr, decryptAesKeyInner priv s = Except.error e →
      decryptAesKey priv s =
        Except.error CryptoFailure.failedToDecryptAesKey) := by
  constructor
  · cases hinner : decryptAesKeyInner priv s with
    | error e =>
      left
      simp [decryptAesKey, hinner]
    | ok k =>
      right
      exact ⟨k, by simp [decryptAesKey, hinner],
        decryptAesKeyInner_ok_length priv s k hinner⟩
  · intro e he
    simp [decryptAesKey, he]

/-- Witness for claim C3: a concrete malformed-base64 input against a concrete
key yields exactly the generic error. -/
theorem claim_C3_key_unwrap_generic_error_witness :
    decryptAesKey (RsaPrivateKey.mk 256 (fun _ => none)) B64S.bad =
      Except.error CryptoFailure.failedToDecryptAesKey :=
  (claim_C3_key_unwrap_generic_error (RsaPrivateKey.mk 256 (fun _ => none))
      B64S.bad).2 KeyDecryptInnerErr.badBase64 rfl

/-! ## AES-256-GCM payload cipher (`CryptoService.decrypt_payload` and
`CryptoService.encrypt_payload` in crypto.py)

The GCM primitive lives in the `cryptography` library, not in this
repository; it is modelled as an idealized AEAD. The body transform xors each
byte with a keystream derived from key, iv and position (an involution, like
CTR mode), and the 16-byte tag has a first byte depending linearly on the byte
sums of key, iv and ciphertext — the idealized counterpart of GHASH
linearity, under which any single-byte change of the ciphertext changes the
tag. Decryption verifies the recomputed tag against the provided one and only
then releases the plaintext, exactly as `decryptor.finalize()` does. -/

/-- Keystream byte at position `i` of the modelled GCM body transform. -/
def gcmKeystreamByte (key iv : ByteStr) (i : Nat) : Nat :=
  (key.sum * 131 + iv.sum * 31 + i * 17 + 7) % 256

/-- Modelled GCM body transform starting at position `i`: xor with the
keystream. Encryption and decryption are the same involution. -/
def gcmBody (key iv : ByteStr) (i : Nat) : ByteStr → ByteStr
  | [] => []
  | byte :: rest => (byte ^^^ gcmKeystreamByte key iv i) :: gcmBody key iv (i + 1) rest

/-- Modelled GCM authentication tag: 16 bytes, the first depending linearly on
the byte sums of key, iv and ciphertext, the second on the ciphertext
length. -/
def gcmTag (key iv ct : ByteStr) : ByteStr :=
  ((key.sum + iv.sum + ct.sum) % 256) :: (ct.length % 256) ::
    List.replicate 14 0

/-- Model of `json.dumps` on an already-serialized payload: the identity. -/
def jsonDumps (d : Json) : ByteStr := d

/-- Model of `json.loads` on decrypted bytes. -/
def jsonParse (bs : ByteStr) : Option Json := some bs

/-- Distinct failure causes inside the `try` block of `decrypt_payload`, in
the order the code can raise them: base64 decoding, the explicit IV size
check, the explicit tag size check, the AES key size check at cipher
construction, tag verification at `finalize()`, and JSON parsing. -/
inductive PayloadInnerErr where
  | badBase64 : PayloadInnerErr
  | badIvSize : PayloadInnerErr
  | badTagSize : PayloadInnerErr
  | badKeySize : PayloadInnerErr
  | invalidTag : PayloadInnerErr
  | badJson : PayloadInnerErr
deriving DecidableEq

/-- Body of the `try` block of `CryptoService.decrypt_payload`, with the
distinct failure causes kept apart and in source order: decode the three
base64 inputs, validate the IV and tag sizes before any decryption, construct
the cipher (which checks the AES key size), verify the authentication tag,
and parse the plaintext as JSON. -/
def decryptPayloadInner (dataB ivB tagB : B64S) (key : ByteStr) :
    Except PayloadInnerErr Json :=
  match b64decode dataB with
  | none => Except.error PayloadInnerErr.badBase64
  | some ct =>
    match b64decode ivB with
    | none => Except.error PayloadInnerErr.badBase64
    | some iv =>
      match b64decode tagB with
      | none => Except.error PayloadInnerErr.badBase64
      | some tag =>
        if iv.length ≠ AES_IV_SIZE then Except.error PayloadInnerErr.badIvSize
        else if tag.length ≠ AES_TAG_SIZE then
          Except.error PayloadInnerErr.badTagSize
        else if ¬ (key.length = 16 ∨ key.length = 24 ∨ key.length = 32) then
          Except.error PayloadInnerErr.badKeySize
        else if tag ≠ gcmTag key iv ct then
          Except.error PayloadInnerErr.invalidTag
        else
          match jsonParse (gcmBody key iv 0 ct) with
          | none => Except.error PayloadInnerErr.badJson
          | some p => Except.ok p

/-- Shallow embedding of `CryptoService.decrypt_payload`: the `except
InvalidTag` handler maps a tag verification failure to
`ValueError("Authentication failed - data may be tampered")`, and the blanket
`except Exception` handler maps every other inner failure to
`ValueError("Failed to decrypt payload")`. -/
def decryptPayload (dataB ivB tagB : B64S) (key : ByteStr) :
    Except CryptoFailure Json :=
  match decryptPayloadInner dataB ivB tagB key with
  | Except.ok p => Except.ok p
  | Except.error PayloadInnerErr.invalidTag =>
    Except.error CryptoFailure.authenticationFailed
  | Except.error _ => Except.error CryptoFailure.failedToDecryptPayload

/-- Shallow embedding of `CryptoService.encrypt_payload`. The source draws a
fresh random 12-byte IV with `os.urandom(AES_IV_SIZE)` on every call; the
model receives that IV as the explicit argument `iv`. The payload is
serialized, encrypted, and returned with the IV and tag, all base64. A wrong
AES key size is the one failure the `try` block can hit, collapsed by the
blanket handler into `ValueError("Failed to encrypt payload")`. -/
def encryptPayloadWith (iv : ByteStr) (data : Json) (key : ByteStr) :
    Except CryptoFailure (B64S × B64S × B64S) :=
  if key.length = 16 ∨ key.length = 24 ∨ key.length = 32 then
    let ct := gcmBody key iv 0 (jsonDumps data)
    Except.ok (b64encode ct, b64encode iv, b64encode (gcmTag key iv ct))
  else Except.error CryptoFailure.failedToEncryptPayload

/-- Helper: the modelled GCM body transform is an involution. -/
theorem gcmBody_invol (key iv : ByteStr) :
    ∀ (i : Nat) (l : ByteStr), gcmBody key iv i (gcmBody key iv i l) = l := by
  intro i l
  induction l generalizing i with
  | nil => rfl
  | cons byte rest ih =>
    simp only [gcmBody]
    rw [Nat.xor_assoc, Nat.xor_self, Nat.xor_zero, ih (i + 1)]

/-- Helper: the modelled GCM tag has exactly `AES_TAG_SIZE` bytes. -/
theorem gcmTag_length (key iv ct : ByteStr) :
    (gcmTag key iv ct).length = AES_TAG_SIZE := by
  unfold gcmTag AES_TAG_SIZE
  simp

/-- Helper: changing one ciphertext byte changes the modelled GCM tag. -/
theorem gcmTag_flip_ne (key iv c1 c2 : ByteStr) (b b' : Nat)
    (hb : b < 256) (hb' : b' < 256) (hne : b ≠ b') :
    gcmTag key iv (c1 ++ b :: c2) ≠ gcmTag key iv (c1 ++ b' :: c2) := by
  unfold gcmTag
  intro h
  simp [List.sum_append, List.sum_cons] at h
  omega

/-- Helper: changing one byte of a list yields a different list. -/
theorem list_set_one_ne (t1 t2 : ByteStr) (c c' : Nat) (hne : c ≠ c') :
    t1 ++ c :: t2 ≠ t1 ++ c' :: t2 := by
  intro h
  have h2 : c :: t2 = c' :: t2 := List.append_cancel_left h
  simp at h2
  exact hne h2

/-! ## Claim C7 -/

/-- Claim C7: for every payload and every 32-byte key, decrypting the output
of `encrypt_payload` with the same key and the IV and tag it produced returns
the payload unchanged. The source generates a fresh random 12-byte IV with
`os.urandom` on each call; the model receives that IV as the argument `iv`
with the length it always has. -/
theorem claim_C7_encrypt_decrypt_roundtrip (data : Json) (key iv : ByteStr)
    (hkey : key.length = AES_KEY_SIZE) (hiv : iv.length = AES_IV_SIZE) :
    encryptPayloadWith iv data key =
      Except.ok (b64encode (gcmBody key iv 0 (jsonDumps data)), b64encode iv,
        b64encode (gcmTag key iv (gcmBody key iv 0 (jsonDumps data)))) ∧
    decryptPayload (b64encode (gcmBody key iv 0 (jsonDumps data)))
      (b64encode iv)
      (b64encode (gcmTag key iv (gcmBody key iv 0 (jsonDumps data)))) key =
      Except.ok data := by
  have hk3 : key.length = 16 ∨ key.length = 24 ∨ key.length = 32 := by
    right
    right
    rw [hkey]
    rfl
  constructor
  · unfold encryptPayloadWith
    simp [hk3]
  · unfold decryptPayload decryptPayloadInner
    simp [b64encode, b64decode, hiv, gcmTag_length, hk3, jsonParse, jsonDumps,
      gcmBody_invol]

/-- Witness for claim C7 at a concrete payload, key and IV. -/
theorem claim_C7_encrypt_decrypt_roundtrip_witness :
    encryptPayloadWith (List.replicate 12 1) [10, 20, 30]
      (List.replicate 32 0) =
      Except.ok
        (b64encode (gcmBody (List.replicate 32 0) (List.replicate 12 1) 0
          (jsonDumps [10, 20, 30])),
         b64encode (List.replicate 12 1),
         b64encode (gcmTag (List.replicate 32 0) (List.replicate 12 1)
          (gcmBody (List.replicate 32 0) (List.replicate 12 1) 0
            (jsonDumps [10, 20, 30])))) ∧
    decryptPayload
      (b64encode (gcmBody (List.replicate 32 0) (List.replicate 12 1) 0
        (jsonDumps [10, 20, 30])))
      (b64encode (List.replicate 12 1))
      (b64encode (gcmTag (List.replicate 32 0) (List.replicate 12 1)
        (gcmBody (List.replicate 32 0) (List.replicate 12 1) 0
          (jsonDumps [10, 20, 30]))))
      (List.replicate 32 0) =
      Except.ok [10, 20, 30] :=
  claim_C7_encrypt_decrypt_roundtrip [10, 20, 30] (List.replicate 32 0)
    (List.replicate 12 1) (by decide) (by decide)

/-! ## Claim C5 -/

/-- Claim C5: for a 32-byte key and a well-formed ciphertext (one whose tag is
the GCM tag of the ciphertext under key and IV), flipping any single byte of
the ciphertext or of the authentication tag makes `decrypt_payload` fail with
the authentication error, never returning plaintext; moreover the IV length is
validated to be 12 and the tag length to be 16 before any decryption, with a
size mismatch short-circuiting to a failure. Byte flips are expressed as a
split `prefix ++ byte :: suffix` with a changed byte value; the two byte
values are below 256 as all bytes are. -/
theorem claim_C5_tamper_detection
    (key iv ivx ct c1 c2 t1 t2 data tag0 : ByteStr) (b b' c c' : Nat)
    (hkey : key.length = AES_KEY_SIZE) (hiv : iv.length = AES_IV_SIZE) :
    (b < 256 → b' < 256 → b ≠ b' →
      decryptPayload (b64encode (c1 ++ b' :: c2)) (b64encode iv)
        (b64encode (gcmTag key iv (c1 ++ b :: c2))) key =
        Except.error CryptoFailure.authenticationFailed) ∧
    (gcmTag key iv ct = t1 ++ c :: t2 → c ≠ c' →
      decryptPayload (b64encode ct) (b64encode iv)
        (b64encode (t1 ++ c' :: t2)) key =
        Except.error CryptoFailure.authenticationFailed) ∧
    (ivx.length ≠ AES_IV_SIZE →
      decryptPayloadInner (b64encode data) (b64encode ivx) (b64encode tag0)
        key = Except.error PayloadInnerErr.badIvSize ∧
      decryptPayload (b64encode data) (b64encode ivx) (b64encode tag0) key =
        Except.error CryptoFailure.failedToDecryptPayload) ∧
    (tag0.length ≠ AES_TAG_SIZE →
      decryptPayloadInner (b64encode data) (b64encode iv) (b64encode tag0)
        key = Except.error PayloadInnerErr.badTagSize ∧
      decryptPayload (b64encode data) (b64encode iv) (b64encode tag0) key =
        Except.error CryptoFailure.failedToDecryptPayload) := by
  have hk3 : key.length = 16 ∨ key.length = 24 ∨ key.length = 32 := by
    right
    right
    rw [hkey]
    rfl
  refine ⟨?_, ?_, ?_, ?_⟩
  · intro hb hb' hbb
    have hne := gcmTag_flip_ne key iv c1 c2 b b' hb hb' hbb
    unfold decryptPayload decryptPayloadInner
    simp [b64encode, b64decode, hiv, gcmTag_length, hk3, hne]
  · intro hsplit hcc
    have hlen : (t1 ++ c' :: t2).length = AES_TAG_SIZE := by
      have h0 := gcmTag_length key iv ct
      rw [hsplit] at h0
      simpa using h0
    have hne : t1 ++ c' :: t2 ≠ gcmTag key iv ct := by
      rw [hsplit]
      exact list_set_one_ne t1 t2 c' c (Ne.symm hcc)
    unfold decryptPayload decryptPayloadInner
    simp [b64encode, b64decode, hiv, hlen, hk3, hne]
  · intro hivx
    constructor
    · unfold decryptPayloadInner
      simp [b64encode, b64decode, hivx]
    · unfold decryptPayload decryptPayloadInner
      simp [b64encode, b64decode, hivx]
  · intro htag
    constructor
    · unfold decryptPayloadInner
      simp [b64encode, b64decode, hiv, htag]
    · unfold decryptPayload decryptPayloadInner
      simp [b64encode, b64decode, hiv, htag]

/-- Witness for claim C5 at concrete key, IV, ciphertext and tag values: a
flipped ciphertext byte and a flipped tag byte both yield the authentication
error, and wrong IV or tag sizes yield a failure before decryption. -/
theorem claim_C5_tamper_detection_witness :
    decryptPayload (b64encode [1]) (b64encode (List.replicate 12 1))
      (b64encode (gcmTag (List.replicate 32 0) (List.replicate 12 1) [0]))
      (List.replicate 32 0) =
      Except.error CryptoFailure.authenticationFailed ∧
    decryptPayload (b64encode [5]) (b64encode (List.replicate 12 1))
      (b64encode (18 :: 1 :: List.replicate 14 0)) (List.replicate 32 0) =
      Except.error CryptoFailure.authenticationFailed ∧
    decryptPayloadInner (b64encode []) (b64encode []) (b64encode [])
      (List.replicate 32 0) = Except.error PayloadInnerErr.badIvSize ∧
    decryptPayload (b64encode []) (b64encode []) (b64encode [])
      (List.replicate 32 0) =
      Except.error CryptoFailure.failedToDecryptPayload ∧
    decryptPayloadInner (b64encode []) (b64encode (List.replicate 12 1))
      (b64encode []) (List.replicate 32 0) =
      Except.error PayloadInnerErr.badTagSize ∧
    decryptPayload (b64encode []) (b64encode (List.replicate 12 1))
      (b64encode []) (List.replicate 32 0) =
      Except.error CryptoFailure.failedToDecryptPayload := by
  have h := claim_C5_tamper_detection (List.replicate 32 0)
    (List.replicate 12 1) [] [5] [] [] [] (1 :: List.replicate 14 0) [] []
    0 1 17 18 (by decide) (by decide)
  have h3 := h.2.2.1 (by decide)
  have h4 := h.2.2.2 (by decide)
  exact ⟨h.1 (by decide) (by decide) (by decide),
    h.2.1 (by decide) (by decide), h3.1, h3.2, h4.1, h4.2⟩

/-! ## Field-level encryption (`backend/app/core/field_encryption.py`)

Fernet is library code; it is modelled as an idealized symmetric AEAD on
strings. A string value in a field position is either a well-formed Fernet
token carrying its key identity and plaintext, or any other string; Fernet
decryption succeeds exactly on a token of the matching key and raises
`InvalidToken` otherwise. -/

/-- Model of a Fernet key, identified by an opaque key identity. -/
structure FernetKey where
  keyId : Nat
deriving DecidableEq

/-- Model of a string that may occupy an encrypted-field position: either a
well-formed Fernet token (which encodes the encrypting key and the plaintext)
or any other string. -/
inductive FieldStr where
  | token (keyId : Nat) (msg : String) : FieldStr
  | plain (s : String) : FieldStr
deriving DecidableEq

/-- Model of `Fernet.encrypt`: produces a well-formed token under the key. -/
def fernetEncrypt (k : FernetKey) (m : String) : FieldStr :=
  FieldStr.token k.keyId m

/-- Model of `Fernet.decrypt`: succeeds exactly on a token of the matching
key; `none` stands for the `InvalidToken` exception. -/
def fernetDecrypt (k : FernetKey) (t : FieldStr) : Option String :=
  match t with
  | FieldStr.token kid m => if kid = k.keyId then some m else none
  | FieldStr.plain _ => none

/-- Emptiness of a field string, mirroring the `encrypted_text == ""` check;
a well-formed Fernet token is never the empty string. -/
def fieldStrEmpty : FieldStr → Bool
  | FieldStr.token _ _ => false
  | FieldStr.plain s => s = ""

/-- Error raised by `FieldEncryption.decrypt` when Fernet reports
`InvalidToken`: `ValueError("Failed to decrypt data - invalid encryption
key")`. -/
inductive FieldDecryptErr where
  | invalidKeyOrCorrupted : FieldDecryptErr
deriving DecidableEq

/-- Shallow embedding of `FieldEncryption.encrypt`: `None` and the empty
string map to `None`; any other string is encrypted to a token. -/
def fieldEncrypt (k : FernetKey) (pt : Option String) : Option FieldStr :=
  match pt with
  | none => none
  | some s => if s = "" then none else some (fernetEncrypt k s)

/-- Shallow embedding of `FieldEncryption.decrypt`: `None` and the empty
string map to `None`; otherwise Fernet decrypts, and an `InvalidToken` is
re-raised as the generic decryption `ValueError`. -/
def fieldDecrypt (k : FernetKey) (ct : Option FieldStr) :
    Except FieldDecryptErr (Option String) :=
  match ct with
  | none => Except.ok none
  | some t =>
    if fieldStrEmpty t then Except.ok none
    else
      match fernetDecrypt k t with
      | some m => Except.ok (some m)
      | none => Except.error FieldDecryptErr.invalidKeyOrCorrupted

/-! ## Claim C8 -/

/-- Counterexample to claim C8 as stated: the empty string is a string that is
not a valid Fernet token, yet `FieldEncryption.decrypt` returns `None` for it
instead of raising a decryption error. -/
theorem claim_C8_counterexample :
    fieldDecrypt (FernetKey.mk 0) (some (FieldStr.plain "")) =
      Except.ok none ∧
    fieldDecrypt (FernetKey.mk 0) (some (FieldStr.plain "")) ≠
      Except.error FieldDecryptErr.invalidKeyOrCorrupted := by
  constructor
  · rfl
  · intro h
    simp [fieldDecrypt, fieldStrEmpty] at h

/-- Claim C8 (amended): `encrypt(None)` returns `None`; for every non-empty
string X, `decrypt(encrypt(X))` returns X; decrypting a non-empty string that
is not a valid token under the key raises the decryption error rather than
returning data; the empty string, like `None`, decrypts to `None` without
error. -/
theorem claim_C8_field_cipher_roundtrip (k : FernetKey) (x : String)
    (t : FieldStr) :
    fieldEncrypt k none = none ∧
    (x ≠ "" → fieldDecrypt k (fieldEncrypt k (some x)) =
      Except.ok (some x)) ∧
    (fernetDecrypt k t = none → fieldStrEmpty t = false →
      fieldDecrypt k (some t) =
        Except.error FieldDecryptErr.invalidKeyOrCorrupted) ∧
    fieldDecrypt k (some (FieldStr.plain "")) = Except.ok none := by
  refine ⟨rfl, ?_, ?_, rfl⟩
  · intro hx
    simp [fieldEncrypt, hx, fernetEncrypt, fieldDecrypt, fieldStrEmpty,
      fernetDecrypt]
  · intro hdec hne
    simp [fieldDecrypt, hne, hdec]

/-- Witness for claim C8 at a concrete key, plaintext and non-token string. -/
theorem claim_C8_field_cipher_roundtrip_witness :
    fieldEncrypt (FernetKey.mk 7) none = none ∧
    fieldDecrypt (FernetKey.mk 7)
      (fieldEncrypt (FernetKey.mk 7) (some "hello")) =
      Except.ok (some "hello") ∧
    fieldDecrypt (FernetKey.mk 7) (some (FieldStr.plain "junk")) =
      Except.error FieldDecryptErr.invalidKeyOrCorrupted ∧
    fieldDecrypt (FernetKey.mk 7) (some (FieldStr.plain "")) =
      Except.ok none := by
  have h := claim_C8_field_cipher_roundtrip (FernetKey.mk 7) "hello"
    (FieldStr.plain "junk")
  exact ⟨h.1, h.2.1 (by decide), h.2.2.1 rfl rfl, h.2.2.2⟩

/-! ## RSA key initialization (`CryptoService._initialize_keys` in crypto.py) -/

/-- Model of the `RSA_PRIVATE_KEY_PEM` configuration string: either a
well-formed PEM encoding a private key or a malformed one, on which
`serialization.load_pem_private_key` raises. -/
inductive Pem where
  | wellFormed (sk : Nat) : Pem
  | malformed : Pem
deriving DecidableEq

/-- Configuration environment read by `_initialize_keys`: the optional
`RSA_PRIVATE_KEY_PEM` value and the `ENVIRONMENT` value. -/
structure CryptoConfig where
  rsaPrivateKeyPem : Option Pem
  environment : String
deriving DecidableEq

/-- Outcome of `_initialize_keys`. The source catches any load failure, so
the function is total and has no failure outcome: it either loads the
supplied key or generates a fresh pair, logging a warning (but proceeding)
when generation happens in a production-marked environment. -/
inductive KeyInitResult where
  | loadedFromEnv (sk : Nat) : KeyInitResult
  | generated (productionWarning : Bool) : KeyInitResult
deriving DecidableEq

/-- Shallow embedding of `CryptoService._initialize_keys`: a present,
well-formed PEM is loaded; a malformed PEM has its exception caught and
logged, after which control falls through to generating a fresh RSA key pair,
just as when no PEM is configured at all. -/
def initializeKeys (cfg : CryptoConfig) : KeyInitResult :=
  match cfg.rsaPrivateKeyPem with
  | some (Pem.wellFormed sk) => KeyInitResult.loadedFromEnv sk
  | some Pem.malformed =>
    KeyInitResult.generated (cfg.environment == "production")
  | none => KeyInitResult.generated (cfg.environment == "production")

/-! ## Claim C2 -/

/-- Counterexample to claim C2 as stated: with a malformed PEM supplied in a
production environment, key initialization does not fail — it continues with
freshly generated key material (emitting only a warning), so the process
serves traffic with keys other than the configured ones. -/
theorem claim_C2_counterexample :
    initializeKeys (CryptoConfig.mk (some Pem.malformed) "production") =
      KeyInitResult.generated true := by
  rfl

/-- Claim C2 (amended): if the supplied private key PEM is malformed,
`_initialize_keys` logs the load failure and falls back to generating a fresh
RSA key pair, with a warning flagged exactly when the environment is marked
production; it raises no configuration error and the process continues with
the generated key material. -/
theorem claim_C2_malformed_pem_fallback (cfg : CryptoConfig)
    (h : cfg.rsaPrivateKeyPem = some Pem.malformed) :
    initializeKeys cfg =
      KeyInitResult.generated (cfg.environment == "production") := by
  unfold initializeKeys
  rw [h]

/-- Witness for claim C2 at a concrete configuration. -/
theorem claim_C2_malformed_pem_fallback_witness :
    initializeKeys (CryptoConfig.mk (some Pem.malformed) "development") =
      KeyInitResult.generated ("development" == "production") :=
  claim_C2_malformed_pem_fallback
    (CryptoConfig.mk (some Pem.malformed) "development") rfl

/-! ## Encryption middleware
(`backend/app/middleware/encryption_middleware.py`) -/

/-- Endpoints exempt from encryption (`EXEMPT_ENDPOINTS`). -/
def EXEMPT_ENDPOINTS : List String :=
  ["/health", "/api/crypto/public-key", "/api/crypto/key-version",
   "/api/crypto/health", "/api/crypto/nonce-stats", "/docs", "/redoc",
   "/openapi.json", "/api/auth/login", "/api/auth/register"]

/-- Endpoints that require encryption (`ENCRYPTION_REQUIRED_ENDPOINTS`): the
source list is entirely commented out, so it is empty. -/
def ENCRYPTION_REQUIRED_ENDPOINTS : List String := []

/-- Model of `path.startswith(prefix)`. -/
def pathStartsWith (path pre : String) : Bool :=
  pre.data.isPrefixOf path.data

/-- Shallow embedding of `EncryptionMiddleware.is_exempt_endpoint`. -/
def isExemptEndpoint (path : String) : Bool :=
  EXEMPT_ENDPOINTS.any (fun e => pathStartsWith path e)

/-- Shallow embedding of `EncryptionMiddleware.requires_encryption`. -/
def requiresEncryptionPath (path : String) : Bool :=
  ENCRYPTION_REQUIRED_ENDPOINTS.any (fun e => pathStartsWith path e)

/-- Mutating HTTP methods checked by the middleware:
`request.method in ["POST", "PUT", "PATCH"]`. -/
def mutatingMethod (m : String) : Bool :=
  m == "POST" || m == "PUT" || m == "PATCH"

/-- The observable attributes of a request the dispatch logic branches on:
path, method, and whether the `X-Encrypted-Request: true` header is set. -/
structure MwRequest where
  path : String
  method : String
  encryptedHeader : Bool
deriving DecidableEq

/-- Outcome of `await self.decrypt_request(request)` as seen by `dispatch`:
the call returned a dict, returned `None`, or raised. -/
inductive DecryptResult where
  | ok (d : Json) : DecryptResult
  | failed : DecryptResult
  | raised : DecryptResult
deriving DecidableEq

/-- Observable outcome of `EncryptionMiddleware.dispatch`: the request is
passed to `call_next` (with or without decrypted data attached), or it is
rejected with one of the distinct error responses. -/
inductive DispatchOutcome where
  | passthroughPlain : DispatchOutcome
  | passthroughDecrypted (d : Json) : DispatchOutcome
  | reject400DecryptionFailed : DispatchOutcome
  | reject400InvalidRequest : DispatchOutcome
  | reject403EndpointRequiresEncryption : DispatchOutcome
  | reject403EncryptionRequired : DispatchOutcome
deriving DecidableEq

/-- The second `if`/`elif` chain of `dispatch`, reached by every request that
the first chain did not return from. Its first branch (a logging-only branch
guarded by `not is_encrypted and request.method in [POST, PUT, PATCH]`)
shadows the `elif ENCRYPTION_REQUIRED ...` branch, so the global rejection is
only reachable when that first guard is false. -/
def dispatchTail (encryptionRequired : Bool) (req : MwRequest)
    (dec : Option Json) : DispatchOutcome :=
  if !req.encryptedHeader && mutatingMethod req.method then
    match dec with
    | some d => DispatchOutcome.passthroughDecrypted d
    | none => DispatchOutcome.passthroughPlain
  else if encryptionRequired && mutatingMethod req.method then
    DispatchOutcome.reject403EncryptionRequired
  else
    match dec with
    | some d => DispatchOutcome.passthroughDecrypted d
    | none => DispatchOutcome.passthroughPlain

/-- Shallow embedding of `EncryptionMiddleware.dispatch` with the module
flag `ENCRYPTION_REQUIRED` as the parameter `encryptionRequired` and the
outcome of `decrypt_request` supplied as `dr`. Exempt paths bypass
everything; an encrypted request is decrypted (failures mapped to the 400
responses); a plain mutating request to a per-path required endpoint gets the
per-path 403; every other request reaches the second chain. -/
def dispatch (encryptionRequired : Bool) (req : MwRequest)
    (dr : DecryptResult) : DispatchOutcome :=
  if isExemptEndpoint req.path then DispatchOutcome.passthroughPlain
  else if req.encryptedHeader then
    match dr with
    | DecryptResult.failed => DispatchOutcome.reject400DecryptionFailed
    | DecryptResult.raised => DispatchOutcome.reject400InvalidRequest
    | DecryptResult.ok d => dispatchTail encryptionRequired req (some d)
  else if requiresEncryptionPath req.path && mutatingMethod req.method then
    DispatchOutcome.reject403EndpointRequiresEncryption
  else dispatchTail encryptionRequired req none

/-! ## Claim C1 -/

/-- Claim C1 evaluated on the code: with the global `ENCRYPTION_REQUIRED`
flag enabled, an unencrypted POST to a non-exempt path is still passed
through and processed as plaintext — the logging-only first branch of the
second chain swallows every plain mutating request, so the `elif` that
carries the global 403 rejection never fires for them; instead that `elif`
fires for successfully decrypted encrypted mutating requests, rejecting
exactly the wrong ones. This contradicts the claim (and the intent recorded
in the branch comment of the source) at the concrete inputs below. -/
theorem claim_C1_kill_switch_ineffective :
    dispatch true (MwRequest.mk "/api/decks" "POST" false)
      DecryptResult.raised = DispatchOutcome.passthroughPlain ∧
    dispatch true (MwRequest.mk "/api/study-sessions/create" "POST" false)
      DecryptResult.raised = DispatchOutcome.passthroughPlain ∧
    dispatch true (MwRequest.mk "/api/decks" "POST" true)
      (DecryptResult.ok [1]) =
      DispatchOutcome.reject403EncryptionRequired := by
  refine ⟨?_, ?_, ?_⟩
  · rfl
  · rfl
  · rfl

/-! ## Encrypted-request pipeline (`EncryptionMiddleware.decrypt_request`) -/

/-- Model of HMAC-SHA256 over the canonical message
`method|url|timestamp|nonce|encryptedData`, keyed with the nonce itself as
`verify_signature` does. The internals of the hash are irrelevant to every
claim under scrutiny; the model is an unspecified-but-fixed concrete
function of all the signed components. -/
def hmacSha256Model (hkey method url : String) (ts : Int) (nonce : String)
    (dataB : B64S) : ByteStr :=
  [(hkey.length + method.length * 3 + url.length * 5 + ts.natAbs * 7 +
      nonce.length * 11 +
      (match dataB with
       | B64S.ok l => l.sum
       | B64S.bad => 97)) % 256]

/-- Shallow embedding of `CryptoService.verify_signature`: recompute the HMAC
of the canonical message keyed by the nonce and compare in constant time;
malformed base64 in the provided signature is caught and yields false. -/
def verifySignature (method url : String) (ts : Int) (nonce : String)
    (dataB sigB : B64S) : Bool :=
  match b64decode sigB with
  | none => false
  | some sig => sig == hmacSha256Model nonce method url ts nonce dataB

/-- The wire envelope as parsed by `decrypt_request`, each field read with
`.get` and hence optional. -/
structure Envelope where
  encryptedKey : Option B64S
  encryptedData : Option B64S
  iv : Option B64S
  authTag : Option B64S
  nonce : Option String
  timestamp : Option Int
  signature : Option B64S
  keyVersion : Option String
deriving DecidableEq

/-- Python truthiness of an optional base64-string field: absent fields and
the empty string are falsy; a malformed but non-empty base64 string is
truthy. -/
def truthyB64 : Option B64S → Bool
  | none => false
  | some (B64S.ok l) => !l.isEmpty
  | some B64S.bad => true

/-- Python truthiness of an optional string field. -/
def truthyStr : Option String → Bool
  | none => false
  | some s => !(s == "")

/-- Python truthiness of an optional integer field: `0` is falsy. -/
def truthyInt : Option Int → Bool
  | none => false
  | some t => !(t == 0)

/-- The `all([...])` required-fields check of `decrypt_request` over the six
required envelope fields, with Python truthiness. -/
def envelopeFieldsTruthy (e : Envelope) : Bool :=
  truthyB64 e.encryptedKey && truthyB64 e.encryptedData && truthyB64 e.iv &&
    truthyB64 e.authTag && truthyStr e.nonce && truthyInt e.timestamp

/-- Distinct failure stages of `decrypt_request`, in pipeline order. The
source returns `None` for each of them; the distinct constructors record
which check rejected, observable in the source through its log lines. -/
inductive RequestFailure where
  | bodyNotJson : RequestFailure
  | missingFields : RequestFailure
  | invalidTimestamp : RequestFailure
  | replayDetected : RequestFailure
  | signatureInvalid : RequestFailure
  | keyDecryptFailed : RequestFailure
  | payloadDecryptFailed : RequestFailure
deriving DecidableEq

/-- Shallow embedding of `EncryptionMiddleware.decrypt_request`. The parsed
body is `none` when `json.loads` raised. The pipeline short-circuits in
source order: required-fields check, timestamp window (120 s), nonce
verification (TTL 300 s, mutating the nonce store), optional signature check,
RSA key unwrap, AES-GCM payload decryption. The `_meta` stripping of the
decrypted dictionary is not modelled: the payload is returned as its
serialization. Returns the result together with the nonce-manager state. -/
def decryptRequest (priv : RsaPrivateKey) (m : NonceManager) (now : Int)
    (method path : String) (body : Option Envelope) :
    Except RequestFailure Json × NonceManager :=
  match body with
  | none => (Except.error RequestFailure.bodyNotJson, m)
  | some e =>
    if !envelopeFieldsTruthy e then
      (Except.error RequestFailure.missingFields, m)
    else
      let ts := e.timestamp.getD 0
      let nonce := e.nonce.getD ""
      if !validateTimestamp now ts 120 then
        (Except.error RequestFailure.invalidTimestamp, m)
      else
        let vr := verifyNonce m now nonce 300
        if !vr.1 then (Except.error RequestFailure.replayDetected, vr.2)
        else
          let sigOk :=
            match e.signature with
            | none => true
            | some sigB =>
              if truthyB64 (some sigB) then
                verifySignature method path ts nonce
                  (e.encryptedData.getD B64S.bad) sigB
              else true
          if !sigOk then
            (Except.error RequestFailure.signatureInvalid, vr.2)
          else
            match decryptAesKey priv (e.encryptedKey.getD B64S.bad) with
            | Except.error _ =>
              (Except.error RequestFailure.keyDecryptFailed, vr.2)
            | Except.ok aesKey =>
              match decryptPayload (e.encryptedData.getD B64S.bad)
                  (e.iv.getD B64S.bad) (e.authTag.getD B64S.bad) aesKey with
              | Except.error _ =>
                (Except.error RequestFailure.payloadDecryptFailed, vr.2)
              | Except.ok payload => (Except.ok payload, vr.2)

/-! ## Claim C10 -/

/-- Claim C10: an envelope in which any required field is falsy — in
particular a timestamp equal to 0 or an empty-string field — is rejected as
missing required fields, with the nonce store untouched, before the timestamp
check, the nonce check, the signature check or any decryption runs. -/
theorem claim_C10_falsy_fields_rejected_first (priv : RsaPrivateKey)
    (m : NonceManager) (now : Int) (method path : String) (e : Envelope) :
    (envelopeFieldsTruthy e = false →
      decryptRequest priv m now method path (some e) =
        (Except.error RequestFailure.missingFields, m)) ∧
    (e.timestamp = some 0 → envelopeFieldsTruthy e = false) ∧
    (e.nonce = some "" → envelopeFieldsTruthy e = false) := by
  refine ⟨?_, ?_, ?_⟩
  · intro h
    unfold decryptRequest
    simp [h]
  · intro h
    unfold envelopeFieldsTruthy truthyInt
    rw [h]
    simp
  · intro h
    unfold envelopeFieldsTruthy truthyStr
    rw [h]
    simp

/-- Witness for claim C10: a concrete envelope with every field present but a
timestamp of 0 is rejected as missing fields with the nonce store unchanged,
even though its nonce is fresh and well-formed. -/
theorem claim_C10_falsy_fields_rejected_first_witness :
    decryptRequest (RsaPrivateKey.mk 256 (fun _ => none))
      (NonceManager.mk none []) 5 "POST" "/api/decks"
      (some (Envelope.mk (some (B64S.ok [1])) (some (B64S.ok [2]))
        (some (B64S.ok [3])) (some (B64S.ok [4])) (some "abcdefghij")
        (some 0) none none)) =
      (Except.error RequestFailure.missingFields,
        NonceManager.mk none []) := by
  have h := claim_C10_falsy_fields_rejected_first
    (RsaPrivateKey.mk 256 (fun _ => none)) (NonceManager.mk none []) 5
    "POST" "/api/decks"
    (Envelope.mk (some (B64S.ok [1])) (some (B64S.ok [2]))
      (some (B64S.ok [3])) (some (B64S.ok [4])) (some "abcdefghij")
      (some 0) none none)
  exact h.1 (h.2.1 rfl)
